import Mathlib

/-!
Shallow embedding of the BingoBook server (src/server.js): an Express +
SQLite backend storing `entries` and `timesheets` tables, with three SQL
triggers (`after_entry_insert`, `after_entry_delete`,
`after_last_timesheetRow_delete`) maintaining a per-entry "row zero"
invariant.

Modelling conventions:
* The two SQLite tables are lists of records; insertion order is list order
  (SQLite rowid order).  The surrogate `id` primary key of `timesheets` is
  not modelled: no endpoint's observable behaviour depends on it (it is only
  echoed as `lastID` in responses).
* The `images` column stores `JSON.stringify` of an array of strings; since
  `JSON.parse` is a left inverse of `JSON.stringify` on arrays of strings,
  the column is modelled directly as `List String`.
* The uploads directory (multer's disk storage) is modelled as the list of
  file names present in `uploads/`.
* SQLite `NULL` is `Option.none`; `roomNumber` columns have INTEGER
  affinity and are modelled as `Option Int`.
* Trigger semantics were established against SQLite itself: with the
  repository's three triggers, the `DELETE FROM timesheets` executed inside
  `after_entry_delete` does fire `after_last_timesheetRow_delete` (this
  holds under both settings of `recursive_triggers`; only self-recursion is
  suppressed by the default).  Hence deleting an entry that had at least one
  timesheet row re-inserts a fresh `(entryId, 0)` row after the cascade
  delete.  A row trigger fires only for statements that actually delete a
  row, and the `WHEN COUNT(*) = 0` guard is evaluated after each individual
  row deletion, so within one DELETE statement the re-insert happens at
  most once, when the last remaining row of the entry is removed.
* Storage failures (the `err` branches of every callback) are outside the
  model: every claim below is about the non-failing executions.
-/

namespace BingoBook

/-- An `entries` table row (columns of `CREATE TABLE entries`). -/
structure Entry where
  id : Int
  firstName : Option String
  lastName : Option String
  roomNumber : Option Int
  additionalText : Option String
  images : List String
  deriving Repr, DecidableEq

/-- A `timesheets` table row (columns of `CREATE TABLE timesheets`, minus
the surrogate autoincrement primary key, which no modelled observable
depends on). -/
structure TimesheetRow where
  entryId : Int
  timesheetRow : Int
  roomNumber : Option Int
  signIn : Option String
  signOut : Option String
  deriving Repr, DecidableEq

/-- The persistent state: the two tables, the autoincrement counter for
`entries.id`, and the set of files in the `uploads/` directory. -/
structure DB where
  entries : List Entry
  timesheets : List TimesheetRow
  nextEntryId : Int
  uploads : List String
  deriving Repr, DecidableEq

/-- The fresh row-zero timesheet row inserted by `after_entry_insert` and
`after_last_timesheetRow_delete`: all fields NULL except the keys. -/
def rowZero (eid : Int) : TimesheetRow :=
  ⟨eid, 0, none, none, none⟩

/-- A JavaScript request-body value, as far as the endpoints inspect one:
absent (`undefined`), a number, or a string. -/
inductive JsVal where
  | undef : JsVal
  | num : Int → JsVal
  | str : String → JsVal
  deriving Repr, DecidableEq

/-- JavaScript truthiness of a body value (`if (!id)` in `/update-data`):
`undefined`, `0` and `""` are falsy. -/
def jsTruthy : JsVal → Bool
  | .undef => false
  | .num n => n != 0
  | .str s => s != ""

/-- The integer a body value denotes when bound against the INTEGER-affinity
`id` column (`WHERE id = ?`): numbers directly, numeric strings by
conversion, anything else matches no row. -/
def jsToInt : JsVal → Option Int
  | .undef => none
  | .num n => some n
  | .str s => s.toInt?

/-- The `WHERE id = ?` comparison as a row predicate. -/
def idMatches (v : JsVal) (n : Int) : Bool :=
  jsToInt v == some n

/-- ASCII lower-casing, the case folding SQLite's default `LIKE` applies. -/
def lowerAscii (c : Char) : Char :=
  if 'A' ≤ c ∧ c ≤ 'Z' then Char.ofNat (c.toNat + 32) else c

/-- Base case: `likePatNil pat = true` iff the LIKE pattern `pat` matches the empty
string (every pattern character must be `%`). -/
def likePatNil : List Char → Bool
  | [] => true
  | p :: ps => p == '%' && likePatNil ps

/-- One character step of LIKE matching: `likeStep c prev pat` decides
whether `pat` matches `c :: s`, where `prev pat1` decides whether `pat1`
matches `s`.  `%` matches any run (drop it, or consume `c` and keep it),
`_` matches exactly one character, and a plain character matches
case-insensitively (ASCII, as in SQLite's default `LIKE`). -/
def likeStep (c : Char) (prev : List Char → Bool) : List Char → Bool
  | [] => false
  | p :: ps =>
    if p == '%' then likeStep c prev ps || prev (p :: ps)
    else (p == '_' || lowerAscii p == lowerAscii c) && prev ps

/-- LIKE matching, by structural recursion on the subject string (argument
order: string first). -/
def likeMatchRev : List Char → List Char → Bool
  | [], pat => likePatNil pat
  | c :: s, pat => likeStep c (likeMatchRev s) pat

/-- SQLite `value LIKE pattern` (default, no ESCAPE): `pat` is the pattern,
`s` the subject. -/
def likeMatch (pat s : List Char) : Bool :=
  likeMatchRev s pat

/-- Matching `field LIKE '%' || q || '%'` against a nullable column: a NULL column
never matches (`NULL LIKE p` is NULL, which WHERE treats as false). -/
def fieldLike (q : String) (f : Option String) : Bool :=
  match f with
  | none => false
  | some s => likeMatch ('%' :: (q.data ++ ['%'])) s.data

/-- Rendering of the INTEGER-affinity `roomNumber` column as the TEXT that
SQLite's `LIKE` coerces it to. -/
def roomText (r : Option Int) : Option String :=
  r.map (fun n => toString n)

/-- The WHERE clause of `GET /get-data`:
`firstName LIKE ? OR lastName LIKE ? OR roomNumber LIKE ? OR additionalText LIKE ?`
with `'%' + q + '%'` bound to each placeholder. -/
def entryLike (q : String) (e : Entry) : Bool :=
  fieldLike q e.firstName || fieldLike q e.lastName ||
    fieldLike q (roomText e.roomNumber) || fieldLike q e.additionalText

/-- Endpoint `GET /get-data`: `req.query.q` absent or empty (falsy) selects all
entries, otherwise the LIKE filter is appended. -/
def getData (st : DB) (q : Option String) : List Entry :=
  match q with
  | none => st.entries
  | some qs => if qs == "" then st.entries else st.entries.filter (entryLike qs)

/-- Endpoint `POST /submit-data`: multer stores the uploaded files, then the entry is
inserted with `images = JSON.stringify(req.files.map(f => f.path))` (multer
paths are `uploads/<name>`), and `after_entry_insert` inserts the row-zero
timesheet row.  Returns the new id (`this.lastID`). -/
def submitData (st : DB) (firstName lastName : Option String)
    (roomNumber : Option Int) (additionalText : Option String)
    (files : List String) : Int × DB :=
  let newId := st.nextEntryId
  let e : Entry :=
    ⟨newId, firstName, lastName, roomNumber, additionalText,
      files.map (fun f => "uploads/" ++ f)⟩
  (newId,
    { st with
      entries := st.entries ++ [e]
      timesheets := st.timesheets ++ [rowZero newId]
      nextEntryId := newId + 1
      uploads := st.uploads ++ files })

/-- Response of `POST /update-data`. -/
inductive UpdResp where
  /-- HTTP 400 `'ID is required'` -/
  | badRequest : UpdResp
  /-- HTTP 200 `{ success: 'Entry updated' }` -/
  | ok : UpdResp
  /-- HTTP 404 `{ error: 'Entry not found' }` -/
  | notFound : UpdResp
  deriving Repr, DecidableEq

/-- Endpoint `POST /update-data`: rejects a falsy `id` with 400, then runs
`UPDATE entries SET firstName = ?, lastName = ?, roomNumber = ?,
additionalText = ? WHERE id = ?` and reports 404 when `this.changes = 0`. -/
def updateData (st : DB) (id : JsVal) (firstName lastName : Option String)
    (roomNumber : Option Int) (additionalText : Option String) : UpdResp × DB :=
  if jsTruthy id then
    let changed := st.entries.countP (fun e => idMatches id e.id)
    if changed > 0 then
      (.ok,
        { st with
          entries := st.entries.map (fun e =>
            if idMatches id e.id then
              { e with firstName := firstName, lastName := lastName,
                       roomNumber := roomNumber,
                       additionalText := additionalText }
            else e) })
    else (.notFound, st)
  else (.badRequest, st)

/-- Response of `POST /delete-data`. -/
inductive DelResp where
  /-- HTTP 400 `{ error: 'Invalid ID provided' }` -/
  | badRequest : DelResp
  /-- HTTP 200 `{ success: 'Entry deleted' }` -/
  | ok : DelResp
  /-- HTTP 404 `{ error: 'Entry not found' }` -/
  | notFound : DelResp
  deriving Repr, DecidableEq

/-- Endpoint `POST /delete-data` with an id that parsed to an integer:
`DELETE FROM entries WHERE id = ?`.  `after_entry_delete` then deletes every
timesheet row of the entry; if that inner DELETE removed at least one row,
its last removal leaves the entry with zero rows, so
`after_last_timesheetRow_delete` fires once and re-inserts a fresh
`(id, 0)` row (verified against SQLite, see the header comment).
404 when no entry row was deleted. -/
def deleteData (st : DB) (id : Int) : DelResp × DB :=
  if st.entries.any (fun e => e.id == id) then
    let entries' := st.entries.filter (fun e => !(e.id == id))
    let hadRows := st.timesheets.any (fun t => t.entryId == id)
    let remaining := st.timesheets.filter (fun t => !(t.entryId == id))
    (.ok,
      { st with
        entries := entries'
        timesheets := if hadRows then remaining ++ [rowZero id] else remaining })
  else (.notFound, st)

/-- Endpoint `DELETE /timesheets/deleteRow`:
`DELETE FROM timesheets WHERE entryId = ? AND timesheetRow = ?`; if at least
one row was deleted and the entry is left with zero rows, the
`after_last_timesheetRow_delete` trigger re-inserts a fresh `(entryId, 0)`
row.  The endpoint answers 200 unconditionally (no changes check). -/
def deleteRow (st : DB) (eid row : Int) : DB :=
  let isTarget := fun (t : TimesheetRow) => t.entryId == eid && t.timesheetRow == row
  let remaining := st.timesheets.filter (fun t => !(isTarget t))
  if st.timesheets.any isTarget && remaining.all (fun t => !(t.entryId == eid)) then
    { st with timesheets := remaining ++ [rowZero eid] }
  else
    { st with timesheets := remaining }

/-- Response of a timesheet update endpoint. -/
inductive TsResp where
  /-- HTTP 200 -/
  | ok : TsResp
  /-- HTTP 404 (`/timesheets/signOut` only) -/
  | notFound : TsResp
  deriving Repr, DecidableEq

/-- Endpoint `POST /timesheets/signIn`:
`UPDATE timesheets SET roomNumber = ?, signIn = ? WHERE entryId = ? AND
timesheetRow = ?`, answering 200 whether or not any row matched (the
handler never inspects `this.changes`). -/
def signIn (st : DB) (eid row : Int) (roomNumber : Option Int)
    (signInTime : Option String) : TsResp × DB :=
  (.ok,
    { st with
      timesheets := st.timesheets.map (fun t =>
        if t.entryId == eid && t.timesheetRow == row then
          { t with roomNumber := roomNumber, signIn := signInTime }
        else t) })

/-- Endpoint `POST /timesheets/signOut`: same UPDATE shape for `signOut`, but 404
when `this.changes = 0`. -/
def signOut (st : DB) (eid row : Int) (signOutTime : Option String) : TsResp × DB :=
  let changed := st.timesheets.countP (fun t => t.entryId == eid && t.timesheetRow == row)
  if changed > 0 then
    (.ok,
      { st with
        timesheets := st.timesheets.map (fun t =>
          if t.entryId == eid && t.timesheetRow == row then
            { t with signOut := signOutTime }
          else t) })
  else (.notFound, st)

/-- Endpoint `POST /timesheets/newRow`:
`INSERT INTO timesheets (entryId, timesheetRow) VALUES (?, ?)`. -/
def newRow (st : DB) (eid row : Int) : DB :=
  { st with timesheets := st.timesheets ++ [⟨eid, row, none, none, none⟩] }

/-- Ascending insertion by `timesheetRow` (stable). -/
def insertByRow (t : TimesheetRow) : List TimesheetRow → List TimesheetRow
  | [] => [t]
  | u :: us => if t.timesheetRow ≤ u.timesheetRow then t :: u :: us
               else u :: insertByRow t us

/-- Stable sort by `timesheetRow`, the `ORDER BY timesheetRow ASC` of
`GET /timesheets/:entryId`. -/
def sortByRow : List TimesheetRow → List TimesheetRow
  | [] => []
  | t :: ts => insertByRow t (sortByRow ts)

/-- Endpoint `GET /timesheets/:entryId`:
`SELECT * FROM timesheets WHERE entryId = ? ORDER BY timesheetRow ASC`. -/
def listTimesheets (st : DB) (eid : Int) : List TimesheetRow :=
  sortByRow (st.timesheets.filter (fun t => t.entryId == eid))

/-- Node's `path.basename` for POSIX paths: the last path segment, with
trailing separators stripped. -/
def basename (p : String) : String :=
  ⟨(((p.data.reverse.dropWhile (fun c => c == '/')).takeWhile
      (fun c => !(c == '/'))).reverse)⟩

/-- Response of `POST /delete-image`. -/
inductive ImgDelResp where
  /-- HTTP 404 `{ error: 'Failed to delete image' }` (unlink failed with ENOENT) -/
  | notFound : ImgDelResp
  /-- the handler throws `TypeError` reading `row.images` of `undefined`
  (no entry row found); no HTTP response is produced -/
  | crashTypeError : ImgDelResp
  /-- HTTP 200 `{ success: 'Image deleted', images }` -/
  | ok : List String → ImgDelResp
  deriving Repr, DecidableEq

/-- Endpoint `POST /delete-image`: unlinks `uploads/<basename(imageName)>` first
(404 on ENOENT); only then reads the entry's image list, filters out every
reference whose basename equals the deleted file's name, and writes the
filtered list back.  When no entry row exists the select yields
`undefined` and the handler crashes on `row.images` after the file has
already been deleted. -/
def deleteImage (st : DB) (entryId : Int) (imageName : String) : ImgDelResp × DB :=
  let filename := basename imageName
  if st.uploads.contains filename then
    let st1 := { st with uploads := st.uploads.filter (fun f => !(f == filename)) }
    match st1.entries.find? (fun e => e.id == entryId) with
    | none => (.crashTypeError, st1)
    | some e =>
      let images' := e.images.filter (fun img => !(basename img == filename))
      (.ok images',
        { st1 with
          entries := st1.entries.map (fun x =>
            if x.id == entryId then { x with images := images' } else x) })
  else (.notFound, st)

/-- Response of `POST /add-image`. -/
inductive AddImgResp where
  /-- HTTP 400 `{ error: 'No image files provided' }` -/
  | badRequest : AddImgResp
  /-- HTTP 200 `{ success: 'New images added to entry', images }` -/
  | ok : List String → AddImgResp
  deriving Repr, DecidableEq

/-- Endpoint `POST /add-image`: multer stores the files, the handler rejects an
empty upload with 400, reads the entry's current list (empty when the
entry row is missing), appends `/uploads/<name>` references in order, and
writes the list back (`UPDATE ... WHERE id = ?`, silently affecting zero
rows for a missing entry). -/
def addImages (st : DB) (entryId : Int) (files : List String) : AddImgResp × DB :=
  if files.isEmpty then (.badRequest, st)
  else
    let st1 := { st with uploads := st.uploads ++ files }
    let current :=
      match st1.entries.find? (fun e => e.id == entryId) with
      | some e => e.images
      | none => []
    let images' := current ++ files.map (fun f => "/uploads/" ++ f)
    (.ok images',
      { st1 with
        entries := st1.entries.map (fun x =>
          if x.id == entryId then { x with images := images' } else x) })

/-! ## Claim C1: entry creation auto-creates exactly one null row-zero row -/

/-- C1: for every entry creation via `POST /submit-data`, provided the
store holds no timesheet row for the id about to be assigned (the id is
fresh, AUTOINCREMENT never reuses one), immediately afterwards exactly one
`TimesheetRow` with `timesheetRow = 0` exists for the new entry's id, and
that row's `roomNumber`, `signIn` and `signOut` fields are all null. -/
theorem C1_creation_rowZero (st : DB) (fn ln : Option String) (rn : Option Int)
    (a : Option String) (files : List String)
    (h : st.timesheets.all (fun t => !(t.entryId == st.nextEntryId)) = true) :
    (submitData st fn ln rn a files).2.timesheets.filter
        (fun t => t.entryId == (submitData st fn ln rn a files).1 &&
          t.timesheetRow == 0)
      = [rowZero (submitData st fn ln rn a files).1] := by
  have hall := List.all_eq_true.mp h
  simp only [submitData, List.filter_append]
  rw [List.filter_eq_nil_iff.mpr, List.nil_append]
  · simp [rowZero]
  · intro t ht hcontra
    have := hall t ht
    simp only [Bool.and_eq_true, beq_iff_eq] at hcontra
    simp [hcontra.1] at this

/-- Witness for C1 at a concrete store and request. -/
theorem C1_creation_rowZero_witness :
    (DB.mk [] [] 1 []).timesheets.all
        (fun t => !(t.entryId == (DB.mk [] [] 1 []).nextEntryId)) = true ∧
    (submitData (DB.mk [] [] 1 []) (some "Alice") none (some 101) none
          []).2.timesheets.filter
        (fun t => t.entryId ==
            (submitData (DB.mk [] [] 1 []) (some "Alice") none (some 101) none
              []).1 && t.timesheetRow == 0)
      = [rowZero (submitData (DB.mk [] [] 1 []) (some "Alice") none (some 101)
          none []).1] :=
  ⟨by decide,
    C1_creation_rowZero (DB.mk [] [] 1 []) (some "Alice") none (some 101) none
      [] (by decide)⟩

/-! ## Claim C2: deleting the last row resurrects a null row-zero row,
idempotently -/

/-- C2: for every `DELETE /timesheets/deleteRow` call that deletes at least
one row (`h1`) and leaves the entry with zero rows (`h2`: every stored row
of the entry carries the deleted index), the same unit of work re-creates a
fresh `timesheetRow = 0` row with all other fields null as the entry's only
row, and deleting that replacement row again reproduces exactly the same
state. -/
theorem C2_deleteRow_resurrects (st : DB) (eid row : Int)
    (h1 : st.timesheets.any
        (fun t => t.entryId == eid && t.timesheetRow == row) = true)
    (h2 : st.timesheets.all
        (fun t => !(t.entryId == eid) || t.timesheetRow == row) = true) :
    (deleteRow st eid row).timesheets.filter (fun t => t.entryId == eid)
        = [rowZero eid] ∧
      deleteRow (deleteRow st eid row) eid 0 = deleteRow st eid row := by
  have hall := List.all_eq_true.mp h2
  have hrem : ∀ t ∈ st.timesheets.filter
      (fun t => !(t.entryId == eid && t.timesheetRow == row)),
      (t.entryId == eid) = false := by
    intro t ht
    rw [List.mem_filter] at ht
    obtain ⟨htmem, htp⟩ := ht
    have h3 := hall t htmem
    cases he : (t.entryId == eid) with
    | false => rfl
    | true =>
      exfalso
      simp only [he, Bool.not_true, Bool.false_or] at h3
      simp [he, h3] at htp
  have hcond : (st.timesheets.filter
      (fun t => !(t.entryId == eid && t.timesheetRow == row))).all
      (fun t => !(t.entryId == eid)) = true := by
    rw [List.all_eq_true]
    intro t ht
    simp [hrem t ht]
  have hstep : deleteRow st eid row =
      { st with timesheets :=
          (st.timesheets.filter
            (fun t => !(t.entryId == eid && t.timesheetRow == row)))
          ++ [rowZero eid] } := by
    simp only [deleteRow, h1, hcond, Bool.and_self, if_true]
  constructor
  · rw [hstep]
    simp only [List.filter_append]
    rw [List.filter_eq_nil_iff.mpr, List.nil_append]
    · simp [rowZero]
    · intro t ht hcontra
      exact absurd hcontra (by simp [hrem t ht])
  · rw [hstep]
    have hrem0 : ∀ t ∈ (st.timesheets.filter
        (fun t => !(t.entryId == eid && t.timesheetRow == row))),
        (!(t.entryId == eid && t.timesheetRow == (0 : Int))) = true := by
      intro t ht
      simp [hrem t ht]
    have hfilter2 : (st.timesheets.filter
        (fun t => !(t.entryId == eid && t.timesheetRow == row))
        ++ [rowZero eid]).filter
        (fun t => !(t.entryId == eid && t.timesheetRow == (0 : Int)))
        = st.timesheets.filter
          (fun t => !(t.entryId == eid && t.timesheetRow == row)) := by
      rw [List.filter_append, List.filter_eq_self.mpr hrem0]
      simp [rowZero]
    simp only [deleteRow, hfilter2]
    have hany2 : ((st.timesheets.filter
        (fun t => !(t.entryId == eid && t.timesheetRow == row))
        ++ [rowZero eid]).any
        (fun t => t.entryId == eid && t.timesheetRow == (0 : Int))) = true := by
      simp [rowZero]
    simp only [hany2, hcond, Bool.and_self, if_true]

/-- Witness for C2 at a concrete store: entry 1 holds the single row
`(1, 0, NULL, NULL, NULL)` and the call deletes `(entryId 1, row 0)`. -/
theorem C2_deleteRow_resurrects_witness :
    (DB.mk [] [rowZero 1] 2 []).timesheets.any
        (fun t => t.entryId == 1 && t.timesheetRow == 0) = true ∧
    (DB.mk [] [rowZero 1] 2 []).timesheets.all
        (fun t => !(t.entryId == 1) || t.timesheetRow == 0) = true ∧
    ((deleteRow (DB.mk [] [rowZero 1] 2 []) 1 0).timesheets.filter
          (fun t => t.entryId == 1) = [rowZero 1] ∧
      deleteRow (deleteRow (DB.mk [] [rowZero 1] 2 []) 1 0) 1 0
        = deleteRow (DB.mk [] [rowZero 1] 2 []) 1 0) :=
  ⟨by decide, by decide,
    C2_deleteRow_resurrects (DB.mk [] [rowZero 1] 2 []) 1 0 (by decide)
      (by decide)⟩

/-! ## Claim C3: entry deletion and its timesheet rows -/

/-- C3 (code behaviour at the failing input): deleting entry 1 — which
holds its auto-created row-zero timesheet row — reports success and removes
the entry, but the zero-row trigger fires from inside the entry-delete
trigger's cascade and re-inserts a fresh `(1, 0)` row, so listing entry 1's
timesheet rows afterwards returns that orphan row instead of the empty
list the claim requires. -/
theorem C3_delete_leaves_orphan_rowZero :
    (deleteData
        (DB.mk [Entry.mk 1 (some "Alice") none (some 101) none []]
          [rowZero 1] 2 []) 1).1 = DelResp.ok ∧
    (deleteData
        (DB.mk [Entry.mk 1 (some "Alice") none (some 101) none []]
          [rowZero 1] 2 []) 1).2.entries = [] ∧
    listTimesheets
        (deleteData
          (DB.mk [Entry.mk 1 (some "Alice") none (some 101) none []]
            [rowZero 1] 2 []) 1).2 1 = [rowZero 1] ∧
    listTimesheets
        (deleteData
          (DB.mk [Entry.mk 1 (some "Alice") none (some 101) none []]
            [rowZero 1] 2 []) 1).2 1 ≠ [] := by
  refine ⟨by decide, by decide, by decide, by decide⟩

/-! ## Claim C4: delete-image with a missing entry -/

/-- C4 (code behaviour at the failing input): with the file `img1` present
in the image store but no entry with id 5, `POST /delete-image` does not
answer `NotFoundError`: the handler unlinks the file first (the store no
longer holds it and the database is untouched) and then throws a
`TypeError` reading `row.images` of `undefined`. -/
theorem C4_missing_entry_crashes :
    (deleteImage (DB.mk [] [] 1 ["img1"]) 5 "img1").1
        = ImgDelResp.crashTypeError ∧
    (deleteImage (DB.mk [] [] 1 ["img1"]) 5 "img1").1 ≠ ImgDelResp.notFound ∧
    (deleteImage (DB.mk [] [] 1 ["img1"]) 5 "img1").2.uploads = [] ∧
    (deleteImage (DB.mk [] [] 1 ["img1"]) 5 "img1").2.entries = [] := by
  refine ⟨by decide, by decide, by decide, by decide⟩

/-! ## Claim C7: update touches only the four text fields of the targeted
entry -/

/-- C7: every `POST /update-data` call leaves the timesheets table and the
uploads store unchanged, and maps the entries list so that every entry
keeps its `id` and its `images`, and every entry whose id does not match
the request is left entirely unchanged — only
`firstName`/`lastName`/`roomNumber`/`additionalText` of the targeted entry
can change. -/
theorem C7_update_frame (st : DB) (v : JsVal) (fn ln : Option String)
    (rn : Option Int) (a : Option String) :
    (updateData st v fn ln rn a).2.timesheets = st.timesheets ∧
    (updateData st v fn ln rn a).2.uploads = st.uploads ∧
    List.Forall₂ (fun (e e' : Entry) =>
        e'.id = e.id ∧ e'.images = e.images ∧
          (idMatches v e.id = false → e' = e))
      st.entries (updateData st v fn ln rn a).2.entries := by
  have hid : ∀ l : List Entry, List.Forall₂ (fun (e e' : Entry) =>
      e'.id = e.id ∧ e'.images = e.images ∧
        (idMatches v e.id = false → e' = e)) l l := by
    intro l
    rw [List.forall₂_same]
    exact fun e _ => ⟨rfl, rfl, fun _ => rfl⟩
  unfold updateData
  dsimp only
  split
  · split
    · refine ⟨rfl, rfl, ?_⟩
      rw [List.forall₂_map_right_iff, List.forall₂_same]
      intro e _
      by_cases hm : idMatches v e.id = true
      · simp [hm]
      · rw [Bool.not_eq_true] at hm
        simp [hm]
    · exact ⟨rfl, rfl, hid st.entries⟩
  · exact ⟨rfl, rfl, hid st.entries⟩

/-! ## Claim C8: update with a missing id, and with an unknown id -/

/-- C8: `POST /update-data` with the id absent from the body answers 400
(`ValidationError`) leaving the store untouched; with a present (truthy) id
matching no stored entry it answers 404 (not-found) and the stored state is
completely unchanged. -/
theorem C8_update_notFound_no_effects (st : DB) (v : JsVal)
    (fn ln : Option String) (rn : Option Int) (a : Option String)
    (hv : jsTruthy v = true)
    (hm : st.entries.all (fun e => !(idMatches v e.id)) = true) :
    updateData st .undef fn ln rn a = (UpdResp.badRequest, st) ∧
      updateData st v fn ln rn a = (UpdResp.notFound, st) := by
  constructor
  · simp [updateData, jsTruthy]
  · have hcount : st.entries.countP (fun e => idMatches v e.id) = 0 := by
      rw [List.countP_eq_zero]
      intro e he
      have h3 := List.all_eq_true.mp hm e he
      rw [Bool.not_eq_true'] at h3
      simp [h3]
    simp [updateData, hv, hcount]

/-- Witness for C8: a store holding only entry 1, updated at id 999. -/
theorem C8_update_notFound_no_effects_witness :
    jsTruthy (JsVal.num 999) = true ∧
    (DB.mk [Entry.mk 1 none none none none []] [] 2 []).entries.all
        (fun e => !(idMatches (JsVal.num 999) e.id)) = true ∧
    (updateData (DB.mk [Entry.mk 1 none none none none []] [] 2 [])
          .undef (some "x") none none none
        = (UpdResp.badRequest,
            DB.mk [Entry.mk 1 none none none none []] [] 2 []) ∧
      updateData (DB.mk [Entry.mk 1 none none none none []] [] 2 [])
          (JsVal.num 999) (some "x") none none none
        = (UpdResp.notFound,
            DB.mk [Entry.mk 1 none none none none []] [] 2 [])) :=
  ⟨by decide, by decide,
    C8_update_notFound_no_effects
      (DB.mk [Entry.mk 1 none none none none []] [] 2 [])
      (JsVal.num 999) (some "x") none none none (by decide) (by decide)⟩

/-! ## Claim C9: signIn reports success even when no row matches -/

/-- C9: `POST /timesheets/signIn` always answers 200; in particular when no
timesheet row matches `(entryId, timesheetRow)` the update affects zero
rows, the state is unchanged, and the response is still success — a
no-match update is never reported as an error. -/
theorem C9_signIn_always_ok (st : DB) (eid row : Int) (rn : Option Int)
    (si : Option String) :
    (signIn st eid row rn si).1 = TsResp.ok ∧
      (st.timesheets.all
          (fun t => !(t.entryId == eid && t.timesheetRow == row)) = true →
        signIn st eid row rn si = (TsResp.ok, st)) := by
  refine ⟨rfl, fun hnone => ?_⟩
  have h1 : st.timesheets.map (fun t =>
      if t.entryId == eid && t.timesheetRow == row then
        { t with roomNumber := rn, signIn := si }
      else t) = st.timesheets := by
    conv_rhs => rw [← List.map_id st.timesheets]
    apply List.map_congr_left
    intro t ht
    have hf := List.all_eq_true.mp hnone t ht
    rw [Bool.not_eq_true'] at hf
    simp [hf]
  simp only [signIn, h1]

/-- Witness for C9: signing in against `(entryId 5, row 3)` when the store
only holds entry 1's row-zero row. -/
theorem C9_signIn_always_ok_witness :
    (signIn (DB.mk [] [rowZero 1] 2 []) 5 3 (some 101)
        (some "2024-01-01T09:00")).1 = TsResp.ok ∧
    (DB.mk [] [rowZero 1] 2 []).timesheets.all
        (fun t => !(t.entryId == 5 && t.timesheetRow == 3)) = true ∧
    signIn (DB.mk [] [rowZero 1] 2 []) 5 3 (some 101)
        (some "2024-01-01T09:00")
      = (TsResp.ok, DB.mk [] [rowZero 1] 2 []) :=
  ⟨(C9_signIn_always_ok (DB.mk [] [rowZero 1] 2 []) 5 3 (some 101)
      (some "2024-01-01T09:00")).1,
    by decide,
    (C9_signIn_always_ok (DB.mk [] [rowZero 1] 2 []) 5 3 (some 101)
      (some "2024-01-01T09:00")).2 (by decide)⟩

/-! ## Claim C10: falsy-but-present ids are rejected as missing -/

/-- C10: `POST /update-data` with `id = 0` or `id = ""` in the body is
rejected with 400 `'ID is required'` (the `if (!id)` check treats every
falsy value as absent), not reported as not-found, and the store is
untouched. -/
theorem C10_falsy_id_rejected (st : DB) (fn ln : Option String)
    (rn : Option Int) (a : Option String) :
    updateData st (JsVal.num 0) fn ln rn a = (UpdResp.badRequest, st) ∧
      updateData st (JsVal.str "") fn ln rn a = (UpdResp.badRequest, st) := by
  constructor <;> simp [updateData, jsTruthy]

/-! ## Claim C5: search is case-insensitive substring matching

The spec-side notion: the query occurs as a case-insensitive substring of a
field.  `isInfixOfB` is its executable form; the theory below relates the
code-side `likeMatch` (SQLite LIKE with the `'%' + q + '%'` pattern built
by `GET /get-data`) to it, for queries free of the LIKE wildcards. -/

/-- Executable infix test: `q` is a contiguous sublist of `s`. -/
def isInfixOfB (q : List Char) : List Char → Bool
  | [] => q.isPrefixOf []
  | c :: s => q.isPrefixOf (c :: s) || isInfixOfB q s

/-- Spec-side field predicate: the query occurs in the (non-null) field as
a case-insensitive (ASCII) substring. -/
def fieldContainsCI (q : String) (f : Option String) : Bool :=
  match f with
  | none => false
  | some s => isInfixOfB (q.data.map lowerAscii) (s.data.map lowerAscii)

/-- Spec-side entry predicate: the query occurs in `firstName`, `lastName`,
`roomNumber` rendered as text, or `additionalText` (logical OR). -/
def entryContainsCI (q : String) (e : Entry) : Bool :=
  fieldContainsCI q e.firstName || fieldContainsCI q e.lastName ||
    fieldContainsCI q (roomText e.roomNumber) || fieldContainsCI q e.additionalText

/-- A LIKE pattern fragment with no wildcards. -/
def plainChars (q : List Char) : Bool :=
  q.all (fun c => !(c == '%') && !(c == '_'))

theorem isInfixOfB_iff (q : List Char) :
    ∀ s : List Char, isInfixOfB q s = true ↔ q <:+: s := by
  intro s
  induction s with
  | nil =>
    rw [isInfixOfB, List.isPrefixOf_iff_prefix, List.prefix_nil, List.infix_nil]
  | cons c s ih =>
    rw [isInfixOfB, Bool.or_eq_true, List.isPrefixOf_iff_prefix, ih,
      List.infix_cons_iff]

theorem likeMatch_nil_pat (s : List Char) : likeMatch [] s = s.isEmpty := by
  cases s <;> rfl

theorem likeMatch_pct_nil (ps : List Char) :
    likeMatch ('%' :: ps) [] = likeMatch ps [] := by
  simp [likeMatch, likeMatchRev, likePatNil]

theorem likeMatch_pct_cons (ps : List Char) (c : Char) (s : List Char) :
    likeMatch ('%' :: ps) (c :: s)
      = (likeMatch ps (c :: s) || likeMatch ('%' :: ps) s) := by
  simp [likeMatch, likeMatchRev, likeStep]

theorem likeMatch_cons_nil (p : Char) (ps : List Char) :
    likeMatch (p :: ps) [] = (p == '%' && likeMatch ps []) := by
  simp [likeMatch, likeMatchRev, likePatNil]

theorem likeMatch_plain_cons (p : Char) (ps : List Char) (c : Char)
    (s : List Char) (hp : (p == '%') = false) :
    likeMatch (p :: ps) (c :: s)
      = ((p == '_' || lowerAscii p == lowerAscii c) && likeMatch ps s) := by
  simp [likeMatch, likeMatchRev, likeStep, hp]

/-- A leading `%` matches any run: the rest of the pattern must match some
suffix of the subject. -/
theorem likeMatch_pct_iff (ps : List Char) :
    ∀ s : List Char, likeMatch ('%' :: ps) s = true ↔
      ∃ t, t <:+ s ∧ likeMatch ps t = true := by
  intro s
  induction s with
  | nil =>
    rw [likeMatch_pct_nil]
    constructor
    · intro h; exact ⟨[], List.suffix_rfl, h⟩
    · rintro ⟨t, ht, hm⟩
      rw [List.suffix_nil] at ht
      rwa [ht] at hm
  | cons c s ih =>
    rw [likeMatch_pct_cons, Bool.or_eq_true, ih]
    constructor
    · rintro (h | ⟨t, ht, hm⟩)
      · exact ⟨c :: s, List.suffix_rfl, h⟩
      · exact ⟨t, ht.trans (List.suffix_cons c s), hm⟩
    · rintro ⟨t, ht, hm⟩
      rw [List.suffix_cons_iff] at ht
      rcases ht with rfl | ht
      · exact Or.inl hm
      · exact Or.inr ⟨t, ht, hm⟩

/-- The pattern `%` alone matches everything. -/
theorem likeMatch_pct_univ : ∀ s : List Char, likeMatch ['%'] s = true := by
  intro s
  induction s with
  | nil => rfl
  | cons c s ih => rw [likeMatch_pct_cons, ih, Bool.or_true]

/-- A wildcard-free fragment followed by `%` matches exactly the subjects
that start (case-insensitively) with the fragment. -/
theorem likeMatch_plain_prefix_iff :
    ∀ q : List Char, plainChars q = true →
      ∀ s : List Char, likeMatch (q ++ ['%']) s = true ↔
        List.map lowerAscii q <+: List.map lowerAscii s := by
  intro q
  induction q with
  | nil =>
    intro _ s
    simp only [List.nil_append, List.map_nil]
    exact ⟨fun _ => List.nil_prefix, fun _ => likeMatch_pct_univ s⟩
  | cons p q ih =>
    intro hq s
    have hparts := hq
    simp only [plainChars, List.all_cons, Bool.and_eq_true,
      Bool.not_eq_true'] at hparts
    obtain ⟨⟨hp1, hp2⟩, hq1⟩ := hparts
    have hq' : plainChars q = true := by
      simp only [plainChars]; exact hq1
    cases s with
    | nil =>
      rw [List.cons_append, likeMatch_cons_nil, hp1]
      simp
    | cons c s =>
      rw [List.cons_append, likeMatch_plain_cons p (q ++ ['%']) c s hp1, hp2]
      simp only [Bool.false_or, Bool.and_eq_true, beq_iff_eq]
      rw [ih hq' s, List.map_cons, List.map_cons, List.cons_prefix_cons]

theorem exists_suffix_of_suffix_map {α β : Type} (f : α → β) :
    ∀ (s : List α) (u : List β), u <:+ s.map f →
      ∃ t, t <:+ s ∧ u = t.map f := by
  intro s
  induction s with
  | nil =>
    intro u hu
    rw [List.map_nil, List.suffix_nil] at hu
    exact ⟨[], List.suffix_rfl, by rw [hu, List.map_nil]⟩
  | cons c s ih =>
    intro u hu
    rw [List.map_cons, List.suffix_cons_iff] at hu
    rcases hu with rfl | hu
    · exact ⟨c :: s, List.suffix_rfl, by rw [List.map_cons]⟩
    · obtain ⟨t, ht, rfl⟩ := ih u hu
      exact ⟨t, ht.trans (List.suffix_cons c s), rfl⟩

/-- For a wildcard-free query `q`, the pattern `'%' + q + '%'` built by
`GET /get-data` matches a subject exactly when `q` occurs in it as a
case-insensitive substring. -/
theorem likeMatch_contains_iff (q : List Char) (hq : plainChars q = true)
    (s : List Char) :
    likeMatch ('%' :: (q ++ ['%'])) s = true ↔
      List.map lowerAscii q <:+: List.map lowerAscii s := by
  rw [likeMatch_pct_iff]
  constructor
  · rintro ⟨t, ht, hm⟩
    rw [likeMatch_plain_prefix_iff q hq t] at hm
    exact List.infix_iff_prefix_suffix.mpr
      ⟨t.map lowerAscii, hm, ht.map lowerAscii⟩
  · intro h
    obtain ⟨t', hpre, hsuf⟩ := List.infix_iff_prefix_suffix.mp h
    obtain ⟨t, hts, rfl⟩ := exists_suffix_of_suffix_map lowerAscii s t' hsuf
    exact ⟨t, hts, (likeMatch_plain_prefix_iff q hq t).mpr hpre⟩

theorem fieldLike_eq_contains (q : String) (hq : plainChars q.data = true)
    (f : Option String) : fieldLike q f = fieldContainsCI q f := by
  cases f with
  | none => rfl
  | some s =>
    simp only [fieldLike, fieldContainsCI]
    rw [Bool.eq_iff_iff, likeMatch_contains_iff q.data hq s.data,
      isInfixOfB_iff]

/-- C5 (amended): `GET /get-data` with no query, or with the empty (falsy)
query, returns all entries; with a nonempty query free of the LIKE
wildcards `%` and `_` it returns exactly the entries in which the query
occurs as a case-insensitive substring of `firstName`, `lastName`,
`roomNumber` rendered as text, or `additionalText` (logical OR). -/
theorem C5_search_substring (st : DB) (q : String) (h1 : q ≠ "")
    (h2 : plainChars q.data = true) :
    getData st none = st.entries ∧
    getData st (some "") = st.entries ∧
    getData st (some q) = st.entries.filter (entryContainsCI q) := by
  refine ⟨rfl, by simp [getData], ?_⟩
  have hne : (q == "") = false := by rwa [beq_eq_false_iff_ne]
  simp only [getData, hne, Bool.false_eq_true, if_false]
  apply List.filter_congr
  intro e _
  simp only [entryLike, entryContainsCI, fieldLike_eq_contains q h2]

/-- Witness for C5 at a concrete store and the query `"AB"`: the match is
case-insensitive and hits `additionalText` and `roomNumber`-as-text
entries alike. -/
theorem C5_search_substring_witness :
    ("AB" : String) ≠ "" ∧
    plainChars ("AB" : String).data = true ∧
    (getData (DB.mk [Entry.mk 1 (some "xaBy") none none none [],
          Entry.mk 2 none none (some 7) none []] [] 3 []) none
        = (DB.mk [Entry.mk 1 (some "xaBy") none none none [],
            Entry.mk 2 none none (some 7) none []] [] 3 []).entries ∧
      getData (DB.mk [Entry.mk 1 (some "xaBy") none none none [],
            Entry.mk 2 none none (some 7) none []] [] 3 []) (some "")
        = (DB.mk [Entry.mk 1 (some "xaBy") none none none [],
            Entry.mk 2 none none (some 7) none []] [] 3 []).entries ∧
      getData (DB.mk [Entry.mk 1 (some "xaBy") none none none [],
            Entry.mk 2 none none (some 7) none []] [] 3 []) (some "AB")
        = (DB.mk [Entry.mk 1 (some "xaBy") none none none [],
            Entry.mk 2 none none (some 7) none []] [] 3
            []).entries.filter (entryContainsCI "AB")) :=
  ⟨by decide, by decide,
    C5_search_substring
      (DB.mk [Entry.mk 1 (some "xaBy") none none none [],
        Entry.mk 2 none none (some 7) none []] [] 3 [])
      "AB" (by decide) (by decide)⟩

/-- C5 counterexample to the claim as stated: for the query `"a%b"` the
code returns the entry whose `firstName` is `"ab"`, although `"a%b"` does
not occur as a substring of any of its fields — `%` is interpreted as a
LIKE wildcard, not literally. -/
theorem C5_wildcard_counterexample :
    getData (DB.mk [Entry.mk 1 (some "ab") none none none []] [] 2 [])
        (some "a%b")
      = [Entry.mk 1 (some "ab") none none none []] ∧
    entryContainsCI "a%b" (Entry.mk 1 (some "ab") none none none [])
      = false := by
  refine ⟨by decide, by decide⟩

/-! ## Claim C6: addImages then deleteImage round trip -/

theorem dropWhile_eq_self_of_all {α : Type} (p : α → Bool) :
    ∀ l : List α, (∀ c ∈ l, p c = false) → l.dropWhile p = l := by
  intro l h
  cases l with
  | nil => rfl
  | cons c t =>
    rw [List.dropWhile_cons_of_neg]
    simp [h c (List.mem_cons_self c t)]

/-- Node's `path.basename` of a separator-free name is the name itself. -/
theorem basename_no_slash (s : String)
    (h : s.data.all (fun c => !(c == '/')) = true) : basename s = s := by
  have hmem : ∀ c ∈ s.data.reverse, (c == '/') = false := by
    intro c hc
    rw [List.mem_reverse] at hc
    have := List.all_eq_true.mp h c hc
    rwa [Bool.not_eq_true'] at this
  have hdrop : s.data.reverse.dropWhile (fun c => c == '/') = s.data.reverse :=
    dropWhile_eq_self_of_all _ _ hmem
  have htake : s.data.reverse.takeWhile (fun c => !(c == '/'))
      = s.data.reverse := by
    rw [List.takeWhile_eq_self_iff]  -- placeholder, fixed below if absent
    intro c hc
    simp [hmem c hc]
  rw [basename, hdrop, htake, List.reverse_reverse]

/-- Node's `path.basename ("/uploads/" ++ s)` recovers a nonempty separator-free
name `s`. -/
theorem basename_uploads (s : String)
    (h : s.data.all (fun c => !(c == '/')) = true) (hne : s ≠ "") :
    basename ("/uploads/" ++ s) = s := by
  have hmem : ∀ c ∈ s.data.reverse, (!(c == '/')) = true := by
    intro c hc
    rw [List.mem_reverse] at hc
    exact List.all_eq_true.mp h c hc
  have hdata : ("/uploads/" ++ s).data.reverse
      = s.data.reverse ++ ("/uploads/" : String).data.reverse := by
    rw [String.data_append, List.reverse_append]
  cases hrev : s.data.reverse with
  | nil =>
    exfalso
    apply hne
    have : s.data = [] := by
      have := congrArg List.reverse hrev
      rwa [List.reverse_reverse, List.reverse_nil] at this
    cases s
    simp_all
  | cons c t =>
    have hc : (!(c == '/')) = true := hmem c (by rw [hrev]; exact List.mem_cons_self c t)
    have hct : ∀ x ∈ c :: t, (!(x == '/')) = true := by
      intro x hx
      exact hmem x (by rw [hrev]; exact hx)
    rw [basename, hdata, hrev, List.cons_append, List.dropWhile_cons_of_neg
      (by rw [Bool.not_eq_true'] at hc; simp [hc]), ← List.cons_append,
      List.takeWhile_append_of_pos hct]
    have htail : (("/uploads/" : String).data.reverse).takeWhile
        (fun c => !(c == '/')) = [] := by decide
    rw [htail, List.append_nil, ← hrev, List.reverse_reverse]

/-- C6 (amended): for an existing entry `e` found at `id`, distinct
nonempty separator-free file names `f1 ≠ f2`, and a prior image list none
of whose references has basename `f1`, `addImages id [f1, f2]` followed by
`deleteImage id f1` answers 200 with the prior list extended with `f2`'s
reference, and stores exactly that list (order preserved).  The extra
basename hypothesis is forced: `deleteImage` removes every reference whose
basename matches the deleted file (see the counterexample). -/
theorem C6_roundTrip (st : DB) (e : Entry) (id : Int) (f1 f2 : String)
    (hfind : st.entries.find? (fun x => x.id == id) = some e)
    (h1 : f1.data.all (fun c => !(c == '/')) = true)
    (h2 : f2.data.all (fun c => !(c == '/')) = true)
    (hne1 : f1 ≠ "") (hne2 : f2 ≠ "") (hne : f1 ≠ f2)
    (hprior : e.images.all (fun r => !(basename r == f1)) = true) :
    (deleteImage (addImages st id [f1, f2]).2 id f1).1
        = ImgDelResp.ok (e.images ++ ["/uploads/" ++ f2]) ∧
    (deleteImage (addImages st id [f1, f2]).2 id f1).2.entries.find?
        (fun x => x.id == id)
      = some { e with images := e.images ++ ["/uploads/" ++ f2] } := by
  have heid0 := List.find?_some hfind
  have heid : (e.id == id) = true := heid0
  have hbase1 : basename f1 = f1 := basename_no_slash f1 h1
  have hr1 : basename ("/uploads/" ++ f1) = f1 := basename_uploads f1 h1 hne1
  have hr2 : basename ("/uploads/" ++ f2) = f2 := basename_uploads f2 h2 hne2
  have hA : (addImages st id [f1, f2]).2 =
      { st with
        uploads := st.uploads ++ [f1, f2]
        entries := st.entries.map (fun x =>
          if x.id == id then
            { x with images :=
                e.images ++ ["/uploads/" ++ f1, "/uploads/" ++ f2] }
          else x) } := by
    simp only [addImages, List.isEmpty_cons, Bool.false_eq_true, if_false,
      hfind, List.map_cons, List.map_nil]
  have hcomp1 : ((fun x : Entry => x.id == id) ∘ (fun x : Entry =>
      if x.id == id then
        { x with images := e.images ++ ["/uploads/" ++ f1, "/uploads/" ++ f2] }
      else x)) = (fun x : Entry => x.id == id) := by
    funext x
    by_cases hx : (x.id == id) = true
    · simp [Function.comp, hx]
    · rw [Bool.not_eq_true] at hx
      simp [Function.comp, hx]
  have hcomp2 : ((fun x : Entry => x.id == id) ∘ (fun x : Entry =>
      if x.id == id then
        { x with images := e.images ++ ["/uploads/" ++ f2] }
      else x)) = (fun x : Entry => x.id == id) := by
    funext x
    by_cases hx : (x.id == id) = true
    · simp [Function.comp, hx]
    · rw [Bool.not_eq_true] at hx
      simp [Function.comp, hx]
  have hfind2 : (st.entries.map (fun x =>
      if x.id == id then
        { x with images := e.images ++ ["/uploads/" ++ f1, "/uploads/" ++ f2] }
      else x)).find? (fun x => x.id == id)
      = some { e with images :=
          e.images ++ ["/uploads/" ++ f1, "/uploads/" ++ f2] } := by
    rw [List.find?_map, hcomp1, hfind, Option.map_some', heid]
    simp
  have hcontains : ((st.uploads ++ [f1, f2]).contains f1) = true :=
    List.elem_eq_true_of_mem (by simp)
  have hfilter : (e.images ++ ["/uploads/" ++ f1, "/uploads/" ++ f2]).filter
      (fun img => !(basename img == f1))
      = e.images ++ ["/uploads/" ++ f2] := by
    rw [List.filter_append, List.filter_eq_self.mpr
      (fun r hr => List.all_eq_true.mp hprior r hr)]
    have hk2 : (f2 == f1) = false := beq_eq_false_iff_ne.mpr (Ne.symm hne)
    simp [List.filter_cons, hr1, hr2, hk2]
  rw [hA]
  simp only [deleteImage, hbase1, hcontains, if_true, hfind2, hfilter]
  refine ⟨trivial, ?_⟩
  rw [List.find?_map, hcomp2, hfind2, Option.map_some']
  simp [heid]

/-- Witness for C6 at a concrete store: entry 1 starts with one image
reference, files `"a"` and `"b"` are added and `"a"` is deleted again. -/
theorem C6_roundTrip_witness :
    (DB.mk [Entry.mk 1 none none none none ["/uploads/c"]] [] 2
          ["c"]).entries.find? (fun x => x.id == 1)
      = some (Entry.mk 1 none none none none ["/uploads/c"]) ∧
    (deleteImage (addImages
          (DB.mk [Entry.mk 1 none none none none ["/uploads/c"]] [] 2 ["c"])
          1 ["a", "b"]).2 1 "a").1
      = ImgDelResp.ok (["/uploads/c"] ++ ["/uploads/" ++ "b"]) ∧
    (deleteImage (addImages
          (DB.mk [Entry.mk 1 none none none none ["/uploads/c"]] [] 2 ["c"])
          1 ["a", "b"]).2 1 "a").2.entries.find? (fun x => x.id == 1)
      = some { Entry.mk 1 none none none none ["/uploads/c"] with
          images := ["/uploads/c"] ++ ["/uploads/" ++ "b"] } :=
  ⟨by decide,
    (C6_roundTrip
      (DB.mk [Entry.mk 1 none none none none ["/uploads/c"]] [] 2 ["c"])
      (Entry.mk 1 none none none none ["/uploads/c"]) 1 "a" "b"
      (by decide) (by decide) (by decide) (by decide) (by decide) (by decide)
      (by decide)).1,
    (C6_roundTrip
      (DB.mk [Entry.mk 1 none none none none ["/uploads/c"]] [] 2 ["c"])
      (Entry.mk 1 none none none none ["/uploads/c"]) 1 "a" "b"
      (by decide) (by decide) (by decide) (by decide) (by decide) (by decide)
      (by decide)).2⟩

/-- C6 counterexample to the claim as stated: entry 1's prior image list
already holds a reference with basename `"a"`; adding the distinct files
`"a"`, `"b"` and then deleting `"a"` leaves `["/uploads/b"]`, not the
prior list extended with `[f2]` (which would be
`["/uploads/a", "/uploads/b"]`): `deleteImage` removes every reference
whose basename matches. -/
theorem C6_collision_counterexample :
    (deleteImage (addImages
          (DB.mk [Entry.mk 1 none none none none ["/uploads/a"]] [] 2 [])
          1 ["a", "b"]).2 1 "a").2.entries.find? (fun x => x.id == 1)
      = some (Entry.mk 1 none none none none ["/uploads/b"]) ∧
    (["/uploads/b"] : List String) ≠ ["/uploads/a", "/uploads/b"] := by
  refine ⟨by decide, by decide⟩

end BingoBook
